import Mathlib

/-!
Verification of `bevy_window`'s `window.rs`: the `WindowId` identity type,
the `Window` state record with its outgoing `WindowCommand` queue, and the
`WindowDescriptor` configuration struct.

Modelling conventions:
* `u128` is `Fin (2 ^ 128)`; `u32` physical sizes are `Nat` (the code only
  stores and copies them, never does arithmetic that could wrap).
* `f32` / `f64` fields (`requested_width`, `requested_height`,
  `scale_factor`, `Vec2` components) are modelled by exact rationals.  The
  operations embedded here only store, copy and compare these values —
  they never perform floating-point arithmetic — so exact values are a
  faithful model.  (The logical-size accessors `width`/`height`, which do
  divide in `f64` and narrow to `f32`, are *not* embedded.)
* `Vec::push` appends at the back; `Vec::drain(..)` yields front-to-back
  and leaves the vector empty, so `drain_commands` is modelled as
  returning the queue list together with the emptied state.
* The `wasm32`-only `canvas` field is compiled out on the platforms this
  model covers and is omitted.
-/

namespace BevyWindow

/-- Exact-rational model of `f32` (stored and copied only, no arithmetic). -/
abbrev F32 := Rat

/-- Exact-rational model of `f64` (stored and copied only, no arithmetic). -/
abbrev F64 := Rat

/-- `bevy_math::Vec2`: a 2D vector of `f32` components. -/
structure Vec2 where
  x : F32
  y : F32
deriving DecidableEq

/-- `bevy_utils::Uuid`: a 128-bit value. -/
structure Uuid where
  u128 : Fin (2 ^ 128)
deriving DecidableEq

/-- `Uuid::from_u128`: build a `Uuid` from a 128-bit integer. -/
def Uuid.from_u128 (n : Nat) : Uuid :=
  ⟨⟨n % 2 ^ 128, Nat.mod_lt _ (by norm_num)⟩⟩

/-- `WindowId(Uuid)`. -/
structure WindowId where
  uuid : Uuid
deriving DecidableEq

/-- `WindowId::primary()`: `WindowId(Uuid::from_u128(0))`. -/
def WindowId.primary : WindowId :=
  ⟨Uuid.from_u128 0⟩

/-- `WindowId::is_primary()`: `*self == WindowId::primary()`. -/
def WindowId.is_primary (id : WindowId) : Bool :=
  decide (id = WindowId.primary)

/-- `impl Default for WindowId`: `WindowId::primary()`. -/
instance : Inhabited WindowId :=
  ⟨WindowId.primary⟩

/-- `WindowMode`: `Windowed | BorderlessFullscreen | Fullscreen { use_size }`. -/
inductive WindowMode
  | Windowed
  | BorderlessFullscreen
  | Fullscreen (use_size : Bool)
deriving DecidableEq

/-- `WindowCommand`: one variant per mutable property change. -/
inductive WindowCommand
  | SetWindowMode (mode : WindowMode) (resolution : Nat × Nat)
  | SetTitle (title : String)
  | SetResolution (resolution : F32 × F32)
  | SetVsync (vsync : Bool)
  | SetResizable (resizable : Bool)
  | SetDecorations (decorations : Bool)
  | SetCursorLockMode (locked : Bool)
  | SetCursorVisibility (visible : Bool)
  | SetCursorPosition (position : Vec2)
  | SetMaximized (maximized : Bool)
deriving DecidableEq

/-- `WindowDescriptor`: immutable bag of initial values. -/
structure WindowDescriptor where
  width : F32
  height : F32
  title : String
  vsync : Bool
  resizable : Bool
  decorations : Bool
  cursor_visible : Bool
  cursor_locked : Bool
  mode : WindowMode
deriving DecidableEq

/-- `impl Default for WindowDescriptor`. -/
instance : Inhabited WindowDescriptor :=
  ⟨{ width := 1280
     height := 720
     title := "bevy"
     vsync := true
     resizable := true
     decorations := true
     cursor_visible := true
     cursor_locked := false
     mode := WindowMode.Windowed }⟩

/-- The `Window` struct: property fields plus the outgoing command queue. -/
structure Window where
  id : WindowId
  requested_width : F32
  requested_height : F32
  physical_width : Nat
  physical_height : Nat
  scale_factor : F64
  title : String
  vsync : Bool
  resizable : Bool
  decorations : Bool
  cursor_visible : Bool
  cursor_locked : Bool
  cursor_position : Option Vec2
  mode : WindowMode
  command_queue : List WindowCommand
deriving DecidableEq

/-- `Window::new(id, window_descriptor, physical_width, physical_height, scale_factor)`. -/
def Window.new (id : WindowId) (window_descriptor : WindowDescriptor)
    (physical_width physical_height : Nat) (scale_factor : F64) : Window :=
  { id := id
    requested_width := window_descriptor.width
    requested_height := window_descriptor.height
    physical_width := physical_width
    physical_height := physical_height
    scale_factor := scale_factor
    title := window_descriptor.title
    vsync := window_descriptor.vsync
    resizable := window_descriptor.resizable
    decorations := window_descriptor.decorations
    cursor_visible := window_descriptor.cursor_visible
    cursor_locked := window_descriptor.cursor_locked
    cursor_position := none
    mode := window_descriptor.mode
    command_queue := [] }

/-- `Window::set_maximized`: push `SetMaximized { maximized }` only. -/
def Window.set_maximized (w : Window) (maximized : Bool) : Window :=
  { w with command_queue := w.command_queue ++ [.SetMaximized maximized] }

/-- `Window::set_resolution`: set requested size, push
`SetResolution { resolution: (self.requested_width, self.requested_height) }`. -/
def Window.set_resolution (w : Window) (width height : F32) : Window :=
  let w := { w with requested_width := width, requested_height := height }
  { w with command_queue :=
      w.command_queue ++ [.SetResolution (w.requested_width, w.requested_height)] }

/-- `Window::update_scale_factor_from_backend`. -/
def Window.update_scale_factor_from_backend (w : Window) (scale_factor : F64) : Window :=
  { w with scale_factor := scale_factor }

/-- `Window::update_actual_size_from_backend`. -/
def Window.update_actual_size_from_backend (w : Window)
    (physical_width physical_height : Nat) : Window :=
  { w with physical_width := physical_width, physical_height := physical_height }

/-- `Window::set_title`: set the title, push `SetTitle { title }`. -/
def Window.set_title (w : Window) (title : String) : Window :=
  { w with title := title, command_queue := w.command_queue ++ [.SetTitle title] }

/-- `Window::set_vsync`: set the field, push `SetVsync { vsync }`. -/
def Window.set_vsync (w : Window) (vsync : Bool) : Window :=
  { w with vsync := vsync, command_queue := w.command_queue ++ [.SetVsync vsync] }

/-- `Window::set_resizable`: set the field, push `SetResizable { resizable }`. -/
def Window.set_resizable (w : Window) (resizable : Bool) : Window :=
  { w with resizable := resizable,
           command_queue := w.command_queue ++ [.SetResizable resizable] }

/-- `Window::set_decorations`: set the field, push `SetDecorations { decorations }`. -/
def Window.set_decorations (w : Window) (decorations : Bool) : Window :=
  { w with decorations := decorations,
           command_queue := w.command_queue ++ [.SetDecorations decorations] }

/-- `Window::set_cursor_lock_mode`: set `cursor_locked`, push
`SetCursorLockMode { locked: lock_mode }`. -/
def Window.set_cursor_lock_mode (w : Window) (lock_mode : Bool) : Window :=
  { w with cursor_locked := lock_mode,
           command_queue := w.command_queue ++ [.SetCursorLockMode lock_mode] }

/-- `Window::set_cursor_visibility`: set `cursor_visible`, push
`SetCursorVisibility { visible: visibile_mode }`. -/
def Window.set_cursor_visibility (w : Window) (visibile_mode : Bool) : Window :=
  { w with cursor_visible := visibile_mode,
           command_queue := w.command_queue ++ [.SetCursorVisibility visibile_mode] }

/-- `Window::set_cursor_position`: push `SetCursorPosition { position }` only;
the `cursor_position` field is not written. -/
def Window.set_cursor_position (w : Window) (position : Vec2) : Window :=
  { w with command_queue := w.command_queue ++ [.SetCursorPosition position] }

/-- `Window::update_cursor_position_from_backend`. -/
def Window.update_cursor_position_from_backend (w : Window)
    (cursor_position : Option Vec2) : Window :=
  { w with cursor_position := cursor_position }

/-- `Window::set_mode`: set the mode, push
`SetWindowMode { mode, resolution: (self.physical_width, self.physical_height) }`. -/
def Window.set_mode (w : Window) (mode : WindowMode) : Window :=
  let w := { w with mode := mode }
  { w with command_queue :=
      w.command_queue ++ [.SetWindowMode mode (w.physical_width, w.physical_height)] }

/-- `Window::drain_commands`: `self.command_queue.drain(..)` — return every
queued command front-to-back and leave the queue empty. -/
def Window.drain_commands (w : Window) : List WindowCommand × Window :=
  (w.command_queue, { w with command_queue := [] })

/-- One application-driven mutator call, with its arguments. -/
inductive AppCall
  | setResolution (width height : F32)
  | setTitle (title : String)
  | setVsync (vsync : Bool)
  | setResizable (resizable : Bool)
  | setDecorations (decorations : Bool)
  | setCursorLockMode (lock_mode : Bool)
  | setCursorVisibility (visibile_mode : Bool)
  | setCursorPosition (position : Vec2)
  | setMode (mode : WindowMode)
  | setMaximized (maximized : Bool)
deriving DecidableEq

/-- Run one application-driven mutator call on a `Window`. -/
def AppCall.apply (c : AppCall) (w : Window) : Window :=
  match c with
  | .setResolution width height => w.set_resolution width height
  | .setTitle title => w.set_title title
  | .setVsync vsync => w.set_vsync vsync
  | .setResizable resizable => w.set_resizable resizable
  | .setDecorations decorations => w.set_decorations decorations
  | .setCursorLockMode lock_mode => w.set_cursor_lock_mode lock_mode
  | .setCursorVisibility visibile_mode => w.set_cursor_visibility visibile_mode
  | .setCursorPosition position => w.set_cursor_position position
  | .setMode mode => w.set_mode mode
  | .setMaximized maximized => w.set_maximized maximized

/-- Run a sequence of application-driven mutator calls, first call first. -/
def applyCalls (cs : List AppCall) (w : Window) : Window :=
  cs.foldl (fun w c => c.apply w) w

/-- The single command that one mutator call pushes, given the state it runs
on (only `set_mode` consults the state, for the physical-size payload). -/
def AppCall.command (c : AppCall) (w : Window) : WindowCommand :=
  match c with
  | .setResolution width height => .SetResolution (width, height)
  | .setTitle title => .SetTitle title
  | .setVsync vsync => .SetVsync vsync
  | .setResizable resizable => .SetResizable resizable
  | .setDecorations decorations => .SetDecorations decorations
  | .setCursorLockMode lock_mode => .SetCursorLockMode lock_mode
  | .setCursorVisibility visibile_mode => .SetCursorVisibility visibile_mode
  | .setCursorPosition position => .SetCursorPosition position
  | .setMode mode => .SetWindowMode mode (w.physical_width, w.physical_height)
  | .setMaximized maximized => .SetMaximized maximized

/-- The commands a call sequence enqueues, in call order, threading the
state each call runs on. -/
def queuedBy : List AppCall → Window → List WindowCommand
  | [], _ => []
  | c :: cs, w => c.command w :: queuedBy cs (c.apply w)

/-- Spec-side predicate: the command's constructor and payload match the
mutator call's arguments (for `setMode` the claim constrains the mode
argument; the resolution payload is settled separately by C6). -/
def payloadMatches (c : AppCall) (cmd : WindowCommand) : Prop :=
  match c, cmd with
  | .setResolution width height, .SetResolution r => r = (width, height)
  | .setTitle title, .SetTitle t => t = title
  | .setVsync vsync, .SetVsync b => b = vsync
  | .setResizable resizable, .SetResizable b => b = resizable
  | .setDecorations decorations, .SetDecorations b => b = decorations
  | .setCursorLockMode lock_mode, .SetCursorLockMode b => b = lock_mode
  | .setCursorVisibility visibile_mode, .SetCursorVisibility b => b = visibile_mode
  | .setCursorPosition position, .SetCursorPosition p => p = position
  | .setMode mode, .SetWindowMode m _ => m = mode
  | .setMaximized maximized, .SetMaximized b => b = maximized
  | _, _ => False

/-- Every mutator call appends exactly the command `AppCall.command`
describes to the back of the queue. -/
theorem AppCall.apply_command_queue (c : AppCall) (w : Window) :
    (c.apply w).command_queue = w.command_queue ++ [c.command w] := by
  cases c <;> rfl

/-- The command each call pushes matches that call's arguments. -/
theorem AppCall.command_payloadMatches (c : AppCall) (w : Window) :
    payloadMatches c (c.command w) := by
  cases c <;> simp [payloadMatches, AppCall.command]

/-- Running a call sequence appends exactly `queuedBy` to the queue. -/
theorem applyCalls_command_queue (cs : List AppCall) (w : Window) :
    (applyCalls cs w).command_queue = w.command_queue ++ queuedBy cs w := by
  induction cs generalizing w with
  | nil => simp [applyCalls, queuedBy]
  | cons c cs ih =>
    rw [applyCalls, List.foldl_cons, ← applyCalls, ih, queuedBy,
      AppCall.apply_command_queue, List.append_assoc, List.singleton_append]

/-- One command per call, payloads matching, in call order. -/
theorem queuedBy_forall₂ (cs : List AppCall) (w : Window) :
    List.Forall₂ payloadMatches cs (queuedBy cs w) := by
  induction cs generalizing w with
  | nil => exact List.Forall₂.nil
  | cons c cs ih =>
    exact List.Forall₂.cons (AppCall.command_payloadMatches c w) (ih (c.apply w))

/-- A sequence of calls enqueues exactly one command per call. -/
theorem queuedBy_length (cs : List AppCall) (w : Window) :
    (queuedBy cs w).length = cs.length := by
  induction cs generalizing w with
  | nil => rfl
  | cons c cs ih => simp [queuedBy, ih]

/-- Claim C1: every application-driven mutator call appends exactly one
command whose payload matches the call's arguments, and `drain_commands`
removes and returns all queued commands in FIFO (enqueue) order, leaving the
queue empty, so a drain immediately following a drain yields nothing. -/
theorem drain_commands_fifo_exactly_once (w : Window) (calls : List AppCall) :
    (queuedBy calls w).length = calls.length ∧
    List.Forall₂ payloadMatches calls (queuedBy calls w) ∧
    (applyCalls calls w).drain_commands.1 = w.command_queue ++ queuedBy calls w ∧
    (applyCalls calls w).drain_commands.2.command_queue = [] ∧
    (applyCalls calls w).drain_commands.2.drain_commands.1 = [] :=
  ⟨queuedBy_length calls w, queuedBy_forall₂ calls w,
    applyCalls_command_queue calls w, rfl, rfl⟩

/-- Claim C2: every field-storing mutator updates its authoritative field
immediately, so the matching accessor read directly after the call returns
the argument, with no drain or backend interaction. -/
theorem mutators_update_fields_immediately (w : Window) (width height : F32)
    (title : String) (vsync resizable decorations lock_mode visibile_mode : Bool)
    (mode : WindowMode) :
    (w.set_resolution width height).requested_width = width ∧
    (w.set_resolution width height).requested_height = height ∧
    (w.set_title title).title = title ∧
    (w.set_vsync vsync).vsync = vsync ∧
    (w.set_resizable resizable).resizable = resizable ∧
    (w.set_decorations decorations).decorations = decorations ∧
    (w.set_cursor_lock_mode lock_mode).cursor_locked = lock_mode ∧
    (w.set_cursor_visibility visibile_mode).cursor_visible = visibile_mode ∧
    (w.set_mode mode).mode = mode :=
  ⟨rfl, rfl, rfl, rfl, rfl, rfl, rfl, rfl, rfl⟩

/-- Claim C3: `Window::new` copies requested size, title, vsync, resizable,
decorations, cursor flags and mode from the descriptor, starts with no
cursor position, takes physical size and scale factor from the
caller-supplied arguments, and starts with an empty command queue so an
immediate drain yields no commands. -/
theorem window_new_fields (id : WindowId) (d : WindowDescriptor)
    (pw ph : Nat) (sf : F64) :
    (Window.new id d pw ph sf).id = id ∧
    (Window.new id d pw ph sf).requested_width = d.width ∧
    (Window.new id d pw ph sf).requested_height = d.height ∧
    (Window.new id d pw ph sf).title = d.title ∧
    (Window.new id d pw ph sf).vsync = d.vsync ∧
    (Window.new id d pw ph sf).resizable = d.resizable ∧
    (Window.new id d pw ph sf).decorations = d.decorations ∧
    (Window.new id d pw ph sf).cursor_visible = d.cursor_visible ∧
    (Window.new id d pw ph sf).cursor_locked = d.cursor_locked ∧
    (Window.new id d pw ph sf).mode = d.mode ∧
    (Window.new id d pw ph sf).cursor_position = none ∧
    (Window.new id d pw ph sf).physical_width = pw ∧
    (Window.new id d pw ph sf).physical_height = ph ∧
    (Window.new id d pw ph sf).scale_factor = sf ∧
    (Window.new id d pw ph sf).command_queue = [] ∧
    (Window.new id d pw ph sf).drain_commands.1 = [] :=
  ⟨rfl, rfl, rfl, rfl, rfl, rfl, rfl, rfl, rfl, rfl, rfl, rfl, rfl, rfl, rfl, rfl⟩

/-- Claim C5: `set_cursor_position` enqueues `SetCursorPosition` but leaves
the `cursor_position` field unchanged — indeed no application-driven mutator
changes it — and only `update_cursor_position_from_backend` sets it, to
exactly the supplied optional coordinate. -/
theorem set_cursor_position_deferred (w : Window) (position : Vec2)
    (cursor_position : Option Vec2) (c : AppCall) :
    (w.set_cursor_position position).command_queue
      = w.command_queue ++ [.SetCursorPosition position] ∧
    (w.set_cursor_position position).cursor_position = w.cursor_position ∧
    (c.apply w).cursor_position = w.cursor_position ∧
    (w.update_cursor_position_from_backend cursor_position).cursor_position
      = cursor_position := by
  refine ⟨rfl, rfl, ?_, rfl⟩
  cases c <;> rfl

/-- Claim C6: `set_mode` stores the mode and enqueues `SetWindowMode` whose
resolution payload is the current physical (not requested) size. -/
theorem set_mode_stores_and_enqueues_physical (w : Window) (mode : WindowMode) :
    (w.set_mode mode).mode = mode ∧
    (w.set_mode mode).command_queue
      = w.command_queue ++ [.SetWindowMode mode (w.physical_width, w.physical_height)] :=
  ⟨rfl, rfl⟩

/-- Claim C7: each backend-report mutator overwrites exactly its own
field(s) — stated as a record update touching only those fields — and never
appends to the command queue. -/
theorem backend_updates_overwrite_without_enqueue (w : Window)
    (scale_factor : F64) (physical_width physical_height : Nat)
    (cursor_position : Option Vec2) :
    w.update_scale_factor_from_backend scale_factor
      = { w with scale_factor := scale_factor } ∧
    w.update_actual_size_from_backend physical_width physical_height
      = { w with physical_width := physical_width,
                 physical_height := physical_height } ∧
    w.update_cursor_position_from_backend cursor_position
      = { w with cursor_position := cursor_position } ∧
    (w.update_scale_factor_from_backend scale_factor).command_queue
      = w.command_queue ∧
    (w.update_actual_size_from_backend physical_width physical_height).command_queue
      = w.command_queue ∧
    (w.update_cursor_position_from_backend cursor_position).command_queue
      = w.command_queue :=
  ⟨rfl, rfl, rfl, rfl, rfl, rfl⟩

/-- Claim C8: `primary` is the all-zero 128-bit identity, and `is_primary`
holds exactly on it; in particular `is_primary primary` is true. -/
theorem primary_sentinel_iff (id : WindowId) :
    WindowId.primary.uuid.u128 = (⟨0, by norm_num⟩ : Fin (2 ^ 128)) ∧
    (id.is_primary = true ↔ id = WindowId.primary) ∧
    WindowId.primary.is_primary = true := by
  refine ⟨rfl, ?_, ?_⟩ <;> simp [WindowId.is_primary]

/-- Claim C9: `set_maximized` appends exactly one `SetMaximized` command and
changes no stored field: every field of the state is identical before and
after the call. -/
theorem set_maximized_enqueues_only (w : Window) (maximized : Bool) :
    (w.set_maximized maximized).command_queue
      = w.command_queue ++ [.SetMaximized maximized] ∧
    (w.set_maximized maximized).id = w.id ∧
    (w.set_maximized maximized).requested_width = w.requested_width ∧
    (w.set_maximized maximized).requested_height = w.requested_height ∧
    (w.set_maximized maximized).physical_width = w.physical_width ∧
    (w.set_maximized maximized).physical_height = w.physical_height ∧
    (w.set_maximized maximized).scale_factor = w.scale_factor ∧
    (w.set_maximized maximized).title = w.title ∧
    (w.set_maximized maximized).vsync = w.vsync ∧
    (w.set_maximized maximized).resizable = w.resizable ∧
    (w.set_maximized maximized).decorations = w.decorations ∧
    (w.set_maximized maximized).cursor_visible = w.cursor_visible ∧
    (w.set_maximized maximized).cursor_locked = w.cursor_locked ∧
    (w.set_maximized maximized).cursor_position = w.cursor_position ∧
    (w.set_maximized maximized).mode = w.mode :=
  ⟨rfl, rfl, rfl, rfl, rfl, rfl, rfl, rfl, rfl, rfl, rfl, rfl, rfl, rfl, rfl⟩

/-- Claim C10: the default `WindowId` is the primary sentinel, so a
default-constructed identity satisfies `is_primary`. -/
theorem default_windowId_is_primary :
    (default : WindowId) = WindowId.primary ∧
    (default : WindowId).is_primary = true := by
  refine ⟨rfl, ?_⟩
  simp only [WindowId.is_primary, decide_eq_true_eq]
  rfl

end BevyWindow
